import Mathlib

/-!
# Verification of the road-management traffic simulation core

Shallow embedding of `simulateTrafficChanges` and its helpers
(`fetchJunctionById`, `calculateMockDelay`, `calculateMockThroughput`,
`generateMockTrafficFlowData`) from the repository's API module.

Modelling conventions:
* JavaScript numbers are modelled as exact rationals (`ℚ`) on the scalar
  metric path, which is faithful whenever no division by zero occurs
  (all inputs in these formulas are finite; IEEE double rounding does not
  change any of the rounded integer outputs considered here).
  A separate extended-number type `JSNum` (finite / +∞ / −∞ / NaN) models
  the IEEE semantics of the delay computation, which is the only place a
  division can produce a non-finite value; a bridging lemma shows the two
  models agree whenever `capacity ≠ 0`.
* `Math.round x` is `⌊x + 1/2⌋` (JavaScript rounds half-way cases up).
* The hourly flow series uses `Math.sin`, modelled with `Real.sin` over `ℝ`.
* Timestamps are epoch milliseconds (`ℤ`); `Date#toISOString` is strictly
  monotone and injective on them, so ordering facts transfer verbatim.
* The ambient `new Date()` clock read is an explicit `now : ℤ` parameter.
* The asynchronous functions have no concurrency: `await` is only used to
  sleep and to propagate the single `not found` rejection, so they are
  modelled in `Except String`.
* The JSON datasets (`junctions.json`, `simulation-results.json`) are not
  part of the source tree; they enter the model as explicit parameters
  (a junction list and a partial map of precomputed results).
-/

namespace RoadSim

/-- The fields of `Junction` (types/junction.ts) that the simulation reads.
Presentation-only fields (name, latitude, longitude, trafficLevel,
trafficReasons) are omitted: the simulation never reads them. -/
structure Junction where
  id : String
  laneWidth : ℚ
  speedLimit : ℚ
  signalTiming : ℚ
  lanes : ℚ
  currentTrafficCount : ℚ
  capacity : ℚ

/-- The `changes` argument of `simulateTrafficChanges`: the four fields the
function reads from it. -/
structure ChangeRequest where
  laneWidth : ℚ
  speedLimit : ℚ
  signalTiming : ℚ
  additionalLanes : ℚ

/-- JavaScript `Math.round` on a finite value: round half-way cases toward
positive infinity, i.e. `⌊x + 1/2⌋`. -/
def jsRoundQ (x : ℚ) : ℤ := ⌊x + 1/2⌋

/-- `calculateMockDelay` (rational model, faithful for `capacity ≠ 0`):
`Math.round((20 + trafficRatio * 60) * 10) / 10` where
`trafficRatio = currentTrafficCount / capacity`. -/
def calculateMockDelay (junction : Junction) : ℚ :=
  let trafficRatio := junction.currentTrafficCount / junction.capacity
  (jsRoundQ ((20 + trafficRatio * 60) * 10) : ℚ) / 10

/-- `calculateMockThroughput`: `Math.round(junction.capacity * 0.8)`. -/
def calculateMockThroughput (junction : Junction) : ℚ :=
  (jsRoundQ (junction.capacity * 0.8) : ℚ)

/-! ## IEEE-style extended numbers

`JSNum` models the values a JavaScript number expression can take once a
division by zero is possible: a finite value (exact rational), `Infinity`,
`-Infinity`, or `NaN`.  Negative zero is identified with zero (the source
never produces a negative zero on the delay path). -/

inductive JSNum where
  | num (q : ℚ)
  | inf
  | ninf
  | nan
deriving DecidableEq

/-- JavaScript addition on extended numbers. -/
def jsAdd : JSNum → JSNum → JSNum
  | .nan, _ => .nan
  | _, .nan => .nan
  | .num a, .num b => .num (a + b)
  | .num _, .inf => .inf
  | .inf, .num _ => .inf
  | .num _, .ninf => .ninf
  | .ninf, .num _ => .ninf
  | .inf, .inf => .inf
  | .ninf, .ninf => .ninf
  | .inf, .ninf => .nan
  | .ninf, .inf => .nan

/-- JavaScript multiplication on extended numbers. -/
def jsMul : JSNum → JSNum → JSNum
  | .nan, _ => .nan
  | _, .nan => .nan
  | .num a, .num b => .num (a * b)
  | .num a, .inf => if 0 < a then .inf else if a < 0 then .ninf else .nan
  | .inf, .num a => if 0 < a then .inf else if a < 0 then .ninf else .nan
  | .num a, .ninf => if 0 < a then .ninf else if a < 0 then .inf else .nan
  | .ninf, .num a => if 0 < a then .ninf else if a < 0 then .inf else .nan
  | .inf, .inf => .inf
  | .ninf, .ninf => .inf
  | .inf, .ninf => .ninf
  | .ninf, .inf => .ninf

/-- JavaScript division on extended numbers (zero stands for `+0`;
`x / 0` is `Infinity`, `-Infinity` or `NaN` by the sign of `x`). -/
def jsDiv : JSNum → JSNum → JSNum
  | .nan, _ => .nan
  | _, .nan => .nan
  | .num a, .num b =>
      if b ≠ 0 then .num (a / b)
      else if 0 < a then .inf else if a < 0 then .ninf else .nan
  | .num _, .inf => .num 0
  | .num _, .ninf => .num 0
  | .inf, .num b => if 0 ≤ b then .inf else .ninf
  | .ninf, .num b => if 0 ≤ b then .ninf else .inf
  | .inf, .inf => .nan
  | .inf, .ninf => .nan
  | .ninf, .inf => .nan
  | .ninf, .ninf => .nan

/-- JavaScript `Math.round` on extended numbers: the identity on
`±Infinity` and `NaN`. -/
def jsRoundN : JSNum → JSNum
  | .num a => .num (jsRoundQ a : ℤ)
  | x => x

/-- `calculateMockDelay` under IEEE semantics: the exact same expression as
`calculateMockDelay`, but with every operation interpreted on `JSNum`, so
that `capacity = 0` is modelled faithfully (division by zero). -/
def calculateMockDelayJS (junction : Junction) : JSNum :=
  let trafficRatio := jsDiv (.num junction.currentTrafficCount) (.num junction.capacity)
  jsDiv (jsRoundN (jsMul (jsAdd (.num 20) (jsMul trafficRatio (.num 60))) (.num 10)))
    (.num 10)

/-- On any junction with non-zero capacity the IEEE model and the rational
model of `calculateMockDelay` agree (everything stays finite). -/
theorem calculateMockDelayJS_eq_num (junction : Junction)
    (h : junction.capacity ≠ 0) :
    calculateMockDelayJS junction = .num (calculateMockDelay junction) := by
  simp [calculateMockDelayJS, calculateMockDelay, jsDiv, jsMul, jsAdd, jsRoundN, h]

/-! ## Junction-identifier parsing

The source computes `Number.parseInt(junction.id.replace("j", "")) || 1`.
`String#replace` with a string pattern removes only the first occurrence;
`Number.parseInt` (radix unspecified) skips leading whitespace, accepts an
optional sign, then a `0x`/`0X`-prefixed hexadecimal digit run or a decimal
digit run, returning `NaN` when no digit is found; `|| 1` replaces the falsy
results `NaN`, `0` and `-0` by `1`. -/

def isJSWhitespace (c : Char) : Bool :=
  c = ' ' || c = '\t' || c = '\n' || c = '\r'

/-- Value of a hexadecimal digit, or `none` (48 and 87 are the code points
of `'0'` and of `'a' - 10`). -/
def hexVal (c : Char) : Option ℕ :=
  if c.isDigit then some (c.toNat - 48)
  else
    let l := c.toLower
    if 'a' ≤ l && l ≤ 'f' then some (l.toNat - 87) else none

/-- Value of a decimal digit, or `none`. -/
def decVal (c : Char) : Option ℕ :=
  if c.isDigit then some (c.toNat - 48) else none

/-- Parse a leading run of digits in the given base; `none` when the run is
empty (`parseInt` returns `NaN` then). -/
def parseDigitRun (base : ℕ) (dv : Char → Option ℕ) (s : List Char) : Option ℕ :=
  let ds := s.takeWhile (fun c => (dv c).isSome)
  if ds.isEmpty then none
  else some (ds.foldl (fun a c => base * a + (dv c).getD 0) 0)

/-- Unsigned part of `Number.parseInt`: `0x`/`0X` selects base 16, otherwise
base 10. -/
def parseIntUnsigned : List Char → Option ℕ
  | '0' :: 'x' :: rest => parseDigitRun 16 hexVal rest
  | '0' :: 'X' :: rest => parseDigitRun 16 hexVal rest
  | s => parseDigitRun 10 decVal s

/-- `Number.parseInt` with unspecified radix; `none` models `NaN`. -/
def parseIntJS (s : List Char) : Option ℤ :=
  match s.dropWhile isJSWhitespace with
  | '-' :: rest => (parseIntUnsigned rest).map (fun n => -(n : ℤ))
  | '+' :: rest => (parseIntUnsigned rest).map (fun n => (n : ℤ))
  | t => (parseIntUnsigned t).map (fun n => (n : ℤ))

/-- `String#replace` with the one-character string pattern `"j"` and empty
replacement: drop the first occurrence of `'j'`, if any. -/
def removeFirstJ : List Char → List Char
  | [] => []
  | c :: cs => if c = 'j' then cs else c :: removeFirstJ cs

/-- `Number.parseInt(junction.id.replace("j", "")) || 1`: the `|| 1`
turns the falsy outcomes `NaN`, `0` and `-0` into `1`. -/
def junctionIndexOf (id : String) : ℤ :=
  match parseIntJS (removeFirstJ id.data) with
  | none => 1
  | some n => if n = 0 then 1 else n

/-! ## Hourly flow series -/

/-- JavaScript `Math.round` on a finite double, over `ℝ`. -/
noncomputable def jsRoundR (x : ℝ) : ℤ := ⌊x + 1/2⌋

/-- `Math.sin(((i - 6) * Math.PI) / 12)` for loop index `i`. -/
noncomputable def hourFactor (i : ℕ) : ℝ :=
  Real.sin (((i : ℝ) - 6) * Real.pi / 12)

/-- One entry of the generated series: `{time, traffic, before}`.  `time` is
the epoch-millisecond value whose `toISOString` the source stores; `traffic`
and `before` are `Math.round`/`Math.max` results, hence integers. -/
structure FlowPoint where
  time : ℤ
  traffic : ℤ
  before : ℤ
deriving DecidableEq

/-- `generateMockTrafficFlowData(type, junction, impact = 0)`; the ambient
`new Date()` is the explicit `now` (epoch ms).  The loop body is translated
line by line; `impact` is rational because every caller passes a finite
number (`0` or `totalImpact`), and the truthiness test `impact` on a finite
number is `impact ≠ 0`. -/
noncomputable def generateMockTrafficFlowData (type_ : String) (junction : Junction)
    (impact : ℚ) (now : ℤ) : List FlowPoint :=
  (List.range 24).map fun (i : ℕ) =>
    let time : ℤ := now - ((23 : ℤ) - (i : ℤ)) * (60 * 60 * 1000)
    let junctionIndex : ℤ := junctionIndexOf junction.id
    let hf : ℝ := hourFactor i
    let baseFactor : ℝ := (junctionIndex : ℝ) * 100 + 300
    let traffic : ℤ := max 100 (jsRoundR (baseFactor + hf * 300))
    let traffic : ℤ :=
      if type_ = "after" ∧ impact ≠ 0 then
        max 100 (jsRoundR ((traffic : ℝ) - (impact : ℝ) * 0.5 * (1 + hf)))
      else traffic
    let before : ℤ := jsRoundR (baseFactor * 0.8)
    ⟨time, traffic, before⟩

/-! ## Snapshots and the simulation entry point -/

/-- The shape of the `before`/`after` object literals built inside
`simulateTrafficChanges` (the spec calls it MetricsSnapshot). -/
structure MetricsSnapshot where
  laneWidth : ℚ
  speedLimit : ℚ
  signalTiming : ℚ
  lanes : ℚ
  averageTraffic : ℚ
  averageDelay : ℚ
  throughput : ℚ
  trafficFlowData : List FlowPoint

/-- The `{ before, after }` record `simulateTrafficChanges` returns. -/
structure SimulationResult where
  before : MetricsSnapshot
  after : MetricsSnapshot

/-- The `before` object literal of `simulateTrafficChanges` (the spec's
`computeBeforeSnapshot`). -/
noncomputable def computeBeforeSnapshot (junction : Junction) (now : ℤ) :
    MetricsSnapshot where
  laneWidth := junction.laneWidth
  speedLimit := junction.speedLimit
  signalTiming := junction.signalTiming
  lanes := junction.lanes
  averageTraffic := junction.currentTrafficCount
  averageDelay := calculateMockDelay junction
  throughput := calculateMockThroughput junction
  trafficFlowData := generateMockTrafficFlowData "before" junction 0 now

/-- `totalImpact = laneWidthImpact + speedLimitImpact + signalTimingImpact
+ lanesImpact`, with the four weighted deltas as in the source. -/
def totalImpact (junction : Junction) (changes : ChangeRequest) : ℚ :=
  let laneWidthImpact := (changes.laneWidth - junction.laneWidth) * 20
  let speedLimitImpact := (changes.speedLimit - junction.speedLimit) * 2
  let signalTimingImpact := (junction.signalTiming - changes.signalTiming) * 1.5
  let lanesImpact := changes.additionalLanes * 100
  laneWidthImpact + speedLimitImpact + signalTimingImpact + lanesImpact

/-- The `after` object literal of `simulateTrafficChanges` (the spec's
`computeAfterSnapshot`). -/
noncomputable def computeAfterSnapshot (junction : Junction)
    (changes : ChangeRequest) (now : ℤ) : MetricsSnapshot where
  laneWidth := changes.laneWidth
  speedLimit := changes.speedLimit
  signalTiming := changes.signalTiming
  lanes := junction.lanes + changes.additionalLanes
  averageTraffic :=
    ((max 100 (jsRoundQ (junction.currentTrafficCount * 0.9
        - totalImpact junction changes * 0.5)) : ℤ) : ℚ)
  averageDelay := max 5 (calculateMockDelay junction
    - totalImpact junction changes * 0.1)
  throughput := max 200 (calculateMockThroughput junction
    + totalImpact junction changes)
  trafficFlowData :=
    generateMockTrafficFlowData "after" junction (totalImpact junction changes) now

/-- `fetchJunctionById`: look the id up in `junctions.json` (here the
explicit `junctionsData` list); throw `Junction with ID ... not found`
otherwise.  The artificial `setTimeout` delay has no observable effect. -/
def fetchJunctionById (junctionsData : List Junction) (id : String) :
    Except String Junction :=
  match junctionsData.find? (fun j => j.id == id) with
  | none => .error ("Junction with ID " ++ id ++ " not found")
  | some junction => .ok junction

/-- `simulateTrafficChanges(junctionId, changes)`: return the precomputed
entry of `simulation-results.json` when present, otherwise fetch the
junction (propagating its `not found` rejection) and build the
`{ before, after }` record. -/
noncomputable def simulateTrafficChanges
    (simulationResultsData : String → Option SimulationResult)
    (junctionsData : List Junction) (now : ℤ)
    (junctionId : String) (changes : ChangeRequest) :
    Except String SimulationResult :=
  match simulationResultsData junctionId with
  | some r => .ok r
  | none =>
      match fetchJunctionById junctionsData junctionId with
      | .error e => .error e
      | .ok junction =>
          .ok { before := computeBeforeSnapshot junction now
                after := computeAfterSnapshot junction changes now }

/-! ## Concrete fixtures -/

/-- The concrete scenario junction of the spec's testable-properties
section: `{laneWidth:3, speedLimit:30, signalTiming:60, lanes:2,
currentTrafficCount:400, capacity:500, id:"j1"}`. -/
def scenarioJunction : Junction where
  id := "j1"
  laneWidth := 3
  speedLimit := 30
  signalTiming := 60
  lanes := 2
  currentTrafficCount := 400
  capacity := 500

/-- The concrete scenario change request:
`{laneWidth:3.5, speedLimit:30, signalTiming:45, additionalLanes:1}`. -/
def scenarioChanges : ChangeRequest where
  laneWidth := 3.5
  speedLimit := 30
  signalTiming := 45
  additionalLanes := 1

/-- A junction with zero capacity (otherwise the scenario junction). -/
def zeroCapacityJunction : Junction where
  id := "j9"
  laneWidth := 3
  speedLimit := 30
  signalTiming := 60
  lanes := 2
  currentTrafficCount := 400
  capacity := 0

/-- A stored snapshot used as a precomputed dataset entry in witnesses. -/
def storedSnapshot : MetricsSnapshot where
  laneWidth := 3
  speedLimit := 30
  signalTiming := 60
  lanes := 2
  averageTraffic := 400
  averageDelay := 30
  throughput := 400
  trafficFlowData := []

/-- A stored simulation result used as a precomputed dataset entry. -/
def storedResult : SimulationResult := ⟨storedSnapshot, storedSnapshot⟩

/-! ## Claims -/

/-- C1: the claim says a zero capacity makes both snapshot computations fail
with a distinct InvalidCapacity error and never yields non-finite fields.
The code has no such guard: on a zero-capacity junction
`simulateTrafficChanges` succeeds (returns `.ok` with both snapshots), and
the IEEE model of `calculateMockDelay` shows the computed `averageDelay` is
`Infinity` (`400 / 0`), which is embedded in the returned snapshot. -/
theorem capacity_zero_raises_no_error :
    simulateTrafficChanges (fun _ => none) [zeroCapacityJunction] 0 "j9"
        scenarioChanges
      = .ok { before := computeBeforeSnapshot zeroCapacityJunction 0
              after := computeAfterSnapshot zeroCapacityJunction scenarioChanges 0 } ∧
    calculateMockDelayJS zeroCapacityJunction = JSNum.inf := by
  exact ⟨rfl, by decide⟩

/-- C2: the `after` snapshot's fields follow the stated impact formulas, and
on the concrete scenario `totalImpact = 132.5` and `averageTraffic = 294`. -/
theorem after_snapshot_formulas (now : ℤ) (j : Junction) (c : ChangeRequest)
    (h : 0 < j.capacity) :
    totalImpact j c
        = (c.laneWidth - j.laneWidth) * 20 + (c.speedLimit - j.speedLimit) * 2
          + (j.signalTiming - c.signalTiming) * 1.5 + c.additionalLanes * 100 ∧
    (computeAfterSnapshot j c now).lanes = j.lanes + c.additionalLanes ∧
    (computeAfterSnapshot j c now).averageTraffic
        = ((max 100 (jsRoundQ (j.currentTrafficCount * 0.9
            - totalImpact j c * 0.5)) : ℤ) : ℚ) ∧
    (computeAfterSnapshot j c now).averageDelay
        = max 5 ((computeBeforeSnapshot j now).averageDelay
            - totalImpact j c * 0.1) ∧
    (computeAfterSnapshot j c now).throughput
        = max 200 ((computeBeforeSnapshot j now).throughput + totalImpact j c) ∧
    totalImpact scenarioJunction scenarioChanges = 132.5 ∧
    (computeAfterSnapshot scenarioJunction scenarioChanges now).averageTraffic
        = 294 := by
  refine ⟨rfl, rfl, rfl, rfl, rfl, by norm_num [totalImpact, scenarioJunction,
    scenarioChanges], ?_⟩
  show ((max 100 (jsRoundQ (scenarioJunction.currentTrafficCount * 0.9
      - totalImpact scenarioJunction scenarioChanges * 0.5)) : ℤ) : ℚ) = 294
  norm_num [totalImpact, scenarioJunction, scenarioChanges, jsRoundQ]

/-- C2 witness: the formulas instantiated on the concrete scenario. -/
theorem after_snapshot_formulas_witness :
    (0 : ℚ) < scenarioJunction.capacity ∧
    ((computeAfterSnapshot scenarioJunction scenarioChanges 0).lanes
        = scenarioJunction.lanes + scenarioChanges.additionalLanes ∧
      totalImpact scenarioJunction scenarioChanges = 132.5 ∧
      (computeAfterSnapshot scenarioJunction scenarioChanges 0).averageTraffic
        = 294) :=
  ⟨by norm_num [scenarioJunction],
    (after_snapshot_formulas 0 scenarioJunction scenarioChanges
      (by norm_num [scenarioJunction])).2.1,
    (after_snapshot_formulas 0 scenarioJunction scenarioChanges
      (by norm_num [scenarioJunction])).2.2.2.2.2.1,
    (after_snapshot_formulas 0 scenarioJunction scenarioChanges
      (by norm_num [scenarioJunction])).2.2.2.2.2.2⟩

/-- C3: the `before` snapshot copies the four control fields verbatim, sets
`averageTraffic = currentTrafficCount`,
`averageDelay = round1(20 + (count / capacity) * 60)` and
`throughput = round(capacity * 0.8)`; with a non-negative traffic count the
delay is at least 20. -/
theorem before_snapshot_formulas (now : ℤ) (j : Junction)
    (h : 0 < j.capacity) :
    (computeBeforeSnapshot j now).laneWidth = j.laneWidth ∧
    (computeBeforeSnapshot j now).speedLimit = j.speedLimit ∧
    (computeBeforeSnapshot j now).signalTiming = j.signalTiming ∧
    (computeBeforeSnapshot j now).lanes = j.lanes ∧
    (computeBeforeSnapshot j now).averageTraffic = j.currentTrafficCount ∧
    (computeBeforeSnapshot j now).averageDelay
        = (jsRoundQ ((20 + j.currentTrafficCount / j.capacity * 60) * 10) : ℚ)
            / 10 ∧
    (computeBeforeSnapshot j now).throughput = (jsRoundQ (j.capacity * 0.8) : ℚ) ∧
    (0 ≤ j.currentTrafficCount →
      20 ≤ (computeBeforeSnapshot j now).averageDelay) := by
  refine ⟨rfl, rfl, rfl, rfl, rfl, rfl, rfl, ?_⟩
  intro hc
  have hr : 0 ≤ j.currentTrafficCount / j.capacity := div_nonneg hc h.le
  have hx : (200 : ℚ) ≤ (20 + j.currentTrafficCount / j.capacity * 60) * 10 := by
    nlinarith
  have hfl : (200 : ℤ) ≤ jsRoundQ ((20 + j.currentTrafficCount / j.capacity * 60) * 10) := by
    rw [jsRoundQ, Int.le_floor]
    push_cast
    linarith
  show 20 ≤ (jsRoundQ ((20 + j.currentTrafficCount / j.capacity * 60) * 10) : ℚ) / 10
  rw [le_div_iff₀ (by norm_num : (0 : ℚ) < 10)]
  have h200 : ((200 : ℤ) : ℚ)
      ≤ (jsRoundQ ((20 + j.currentTrafficCount / j.capacity * 60) * 10) : ℚ) :=
    Int.cast_le.mpr hfl
  push_cast at h200
  linarith

/-- C3 witness: the computation instantiated on the concrete scenario. -/
theorem before_snapshot_formulas_witness :
    (0 : ℚ) < scenarioJunction.capacity ∧
    ((computeBeforeSnapshot scenarioJunction 0).averageTraffic
        = scenarioJunction.currentTrafficCount ∧
      (computeBeforeSnapshot scenarioJunction 0).throughput
        = (jsRoundQ (scenarioJunction.capacity * 0.8) : ℚ)) :=
  ⟨by norm_num [scenarioJunction],
    (before_snapshot_formulas 0 scenarioJunction
      (by norm_num [scenarioJunction])).2.2.2.2.1,
    (before_snapshot_formulas 0 scenarioJunction
      (by norm_num [scenarioJunction])).2.2.2.2.2.2.1⟩

/-- C4: the three floors of the `after` snapshot hold unconditionally:
`averageTraffic ≥ 100`, `averageDelay ≥ 5`, `throughput ≥ 200`. -/
theorem after_snapshot_floors (now : ℤ) (j : Junction) (c : ChangeRequest)
    (h : 0 < j.capacity) :
    100 ≤ (computeAfterSnapshot j c now).averageTraffic ∧
    5 ≤ (computeAfterSnapshot j c now).averageDelay ∧
    200 ≤ (computeAfterSnapshot j c now).throughput := by
  refine ⟨?_, le_max_left _ _, le_max_left _ _⟩
  show (100 : ℚ) ≤ ((max 100 (jsRoundQ (j.currentTrafficCount * 0.9
      - totalImpact j c * 0.5)) : ℤ) : ℚ)
  exact_mod_cast le_max_left (100 : ℤ) _

/-- C4 witness: the floors instantiated on the concrete scenario. -/
theorem after_snapshot_floors_witness :
    (0 : ℚ) < scenarioJunction.capacity ∧
    (100 ≤ (computeAfterSnapshot scenarioJunction scenarioChanges 0).averageTraffic ∧
      5 ≤ (computeAfterSnapshot scenarioJunction scenarioChanges 0).averageDelay ∧
      200 ≤ (computeAfterSnapshot scenarioJunction scenarioChanges 0).throughput) :=
  ⟨by norm_num [scenarioJunction],
    after_snapshot_floors 0 scenarioJunction scenarioChanges
      (by norm_num [scenarioJunction])⟩

/-- C8: with the clock injected, both snapshot computations are
deterministic: identical inputs give identical outputs in every field,
the flow series included. -/
theorem snapshots_deterministic (j j' : Junction) (c c' : ChangeRequest)
    (now now' : ℤ) (hj : j = j') (hc : c = c') (hn : now = now') :
    computeBeforeSnapshot j now = computeBeforeSnapshot j' now' ∧
    computeAfterSnapshot j c now = computeAfterSnapshot j' c' now' := by
  subst hj; subst hc; subst hn; exact ⟨rfl, rfl⟩

/-- C8 witness: determinism at the concrete scenario inputs. -/
theorem snapshots_deterministic_witness :
    computeBeforeSnapshot scenarioJunction 0
        = computeBeforeSnapshot scenarioJunction 0 ∧
    computeAfterSnapshot scenarioJunction scenarioChanges 0
        = computeAfterSnapshot scenarioJunction scenarioChanges 0 :=
  snapshots_deterministic scenarioJunction scenarioJunction scenarioChanges
    scenarioChanges 0 0 rfl rfl rfl

/-- C9: when the precomputed dataset has an entry for the id,
`simulateTrafficChanges` returns that entry unchanged, and the result does
not depend on the `changes` argument at all. -/
theorem precomputed_results_short_circuit
    (simulationResultsData : String → Option SimulationResult)
    (junctionsData : List Junction) (now : ℤ) (junctionId : String)
    (changes changes' : ChangeRequest) (r : SimulationResult)
    (h : simulationResultsData junctionId = some r) :
    simulateTrafficChanges simulationResultsData junctionsData now junctionId
        changes = .ok r ∧
    simulateTrafficChanges simulationResultsData junctionsData now junctionId
        changes
      = simulateTrafficChanges simulationResultsData junctionsData now
          junctionId changes' := by
  constructor <;> simp [simulateTrafficChanges, h]

/-- C9 witness: a concrete dataset holding one stored result. -/
theorem precomputed_results_short_circuit_witness :
    (fun _ : String => some storedResult) "j1" = some storedResult ∧
    (simulateTrafficChanges (fun _ => some storedResult) [] 0 "j1"
        scenarioChanges = .ok storedResult ∧
      simulateTrafficChanges (fun _ => some storedResult) [] 0 "j1"
          scenarioChanges
        = simulateTrafficChanges (fun _ => some storedResult) [] 0 "j1"
            ⟨3, 30, 45, 0⟩) :=
  ⟨rfl, precomputed_results_short_circuit (fun _ => some storedResult) [] 0
    "j1" scenarioChanges ⟨3, 30, 45, 0⟩ storedResult rfl⟩

/-- C10: when the id is in neither dataset, `simulateTrafficChanges` fails
with the `Junction with ID ... not found` error coming from
`fetchJunctionById`, and returns no snapshot. -/
theorem unknown_junction_fails
    (simulationResultsData : String → Option SimulationResult)
    (junctionsData : List Junction) (now : ℤ) (junctionId : String)
    (changes : ChangeRequest)
    (h1 : simulationResultsData junctionId = none)
    (h2 : ∀ j ∈ junctionsData, j.id ≠ junctionId) :
    fetchJunctionById junctionsData junctionId
        = .error ("Junction with ID " ++ junctionId ++ " not found") ∧
    simulateTrafficChanges simulationResultsData junctionsData now junctionId
        changes
      = .error ("Junction with ID " ++ junctionId ++ " not found") := by
  have hf : junctionsData.find? (fun j => j.id == junctionId) = none := by
    rw [List.find?_eq_none]
    intro j hj
    simpa using h2 j hj
  constructor
  · simp [fetchJunctionById, hf]
  · simp [simulateTrafficChanges, h1, fetchJunctionById, hf]

/-- C10 witness: empty datasets and a concrete unknown id. -/
theorem unknown_junction_fails_witness :
    (fun _ : String => (none : Option SimulationResult)) "jx" = none ∧
    (∀ j ∈ ([] : List Junction), j.id ≠ "jx") ∧
    (fetchJunctionById [] "jx"
        = .error ("Junction with ID " ++ "jx" ++ " not found") ∧
      simulateTrafficChanges (fun _ => none) [] 0 "jx" scenarioChanges
        = .error ("Junction with ID " ++ "jx" ++ " not found")) :=
  ⟨rfl, by simp,
    unknown_junction_fails (fun _ => none) [] 0 "jx" scenarioChanges rfl
      (by simp)⟩

/-! ## Flow-series claims -/

/-- A junction whose identifier's numeric suffix is `0` (otherwise the
scenario junction).  `parseInt("0") = 0` is falsy, so the code's
`|| 1` replaces it by `1`. -/
def j0Junction : Junction where
  id := "j0"
  laneWidth := 3
  speedLimit := 30
  signalTiming := 60
  lanes := 2
  currentTrafficCount := 400
  capacity := 500

/-- Modelled from the spec's words, for comparison only: "junctionIndex =
numeric suffix parsed from the junction identifier, defaulting to 1 if
absent/non-numeric" — the trailing digit run of the identifier, `1` when
there is none. -/
def specJunctionIndex (id : String) : ℤ :=
  let ds := (id.data.reverse.takeWhile Char.isDigit).reverse
  if ds.isEmpty then 1
  else (ds.foldl (fun a c => 10 * a + ((decVal c).getD 0)) 0 : ℕ)

/-- Value of `hourFactor` at index 12: `sin(π/2) = 1`. -/
theorem hourFactor_twelve : hourFactor 12 = 1 := by
  rw [hourFactor, show ((((12 : ℕ) : ℝ) - 6) * Real.pi / 12) = Real.pi / 2 by
    push_cast; ring, Real.sin_pi_div_two]

/-- Value of `hourFactor` at index 0: `sin(-π/2) = -1`. -/
theorem hourFactor_zero : hourFactor 0 = -1 := by
  rw [hourFactor, show ((((0 : ℕ) : ℝ) - 6) * Real.pi / 12) = -(Real.pi / 2) by
    push_cast; ring, Real.sin_neg, Real.sin_pi_div_two]

/-- Value of `hourFactor` at index 6: `sin(0) = 0`. -/
theorem hourFactor_six : hourFactor 6 = 0 := by
  rw [hourFactor, show ((((6 : ℕ) : ℝ) - 6) * Real.pi / 12) = 0 by
    push_cast; ring, Real.sin_zero]

/-- Value of `hourFactor` at index 18: `sin(π) = 0`. -/
theorem hourFactor_eighteen : hourFactor 18 = 0 := by
  rw [hourFactor, show ((((18 : ℕ) : ℝ) - 6) * Real.pi / 12) = Real.pi by
    push_cast; ring, Real.sin_pi]

/-- C5 counterexample: the factor at index 18 is `sin(π) = 0`, strictly
below the value `1 = sin(π/2)` at index 12, so index 18 is not the maximum;
the factor at index 6 is `sin(0) = 0`, strictly above the value `-1` at
index 0, so index 6 is not the minimum. -/
theorem hourFactor_claimed_extrema_false :
    hourFactor 18 < hourFactor 12 ∧ hourFactor 0 < hourFactor 6 := by
  rw [hourFactor_eighteen, hourFactor_twelve, hourFactor_zero, hourFactor_six]
  norm_num

/-- C5 (amended): over the hour indices `i < 24`, `hourFactor` attains its
maximum (value 1) at index 12 and its minimum (value -1) at index 0. -/
theorem hourFactor_peak_at_twelve_trough_at_zero (i : ℕ) (h : i < 24) :
    hourFactor i ≤ hourFactor 12 ∧ hourFactor 0 ≤ hourFactor i := by
  rw [hourFactor_twelve, hourFactor_zero]
  exact ⟨Real.sin_le_one _, Real.neg_one_le_sin _⟩

/-- C5 witness: the amended extrema bounds at index 18. -/
theorem hourFactor_peak_witness :
    (18 : ℕ) < 24 ∧
    (hourFactor 18 ≤ hourFactor 12 ∧ hourFactor 0 ≤ hourFactor 18) :=
  ⟨by norm_num, hourFactor_peak_at_twelve_trough_at_zero 18 (by norm_num)⟩

/-- C6 counterexample: on the identifier `"j0"` the claim's junction index
(numeric suffix `0`) disagrees with the code (`parseInt("0") = 0` is falsy,
so `|| 1` gives `1`): at hour index 6 the generated traffic value is `400`,
while the claim's formula `max(100, round(junctionIndex·100 + 300 +
hourFactor·300))` with junctionIndex `0` yields `300`. -/
theorem flow_traffic_spec_index_mismatch :
    specJunctionIndex "j0" = 0 ∧ junctionIndexOf "j0" = 1 ∧
    ((generateMockTrafficFlowData "before" j0Junction 0 0).map
        FlowPoint.traffic)[6]? = some 400 ∧
    max 100 (jsRoundR (((specJunctionIndex "j0" : ℤ) : ℝ) * 100 + 300
        + hourFactor 6 * 300)) = 300 ∧
    (400 : ℤ) ≠ 300 := by
  have h0 : specJunctionIndex "j0" = 0 := by decide
  have h1 : junctionIndexOf "j0" = 1 := by decide
  refine ⟨h0, h1, ?_, ?_, by norm_num⟩
  · rw [generateMockTrafficFlowData, List.map_map, List.getElem?_map,
      List.getElem?_range (by norm_num : (6 : ℕ) < 24)]
    show some _ = some _
    simp only [Function.comp, Option.map_some]
    have : (if ("before" : String) = "after" ∧ (0 : ℚ) ≠ 0 then
        max 100 (jsRoundR (((max 100 (jsRoundR
          (((junctionIndexOf j0Junction.id : ℤ) : ℝ) * 100 + 300
            + hourFactor 6 * 300)) : ℤ) : ℝ)
          - ((0 : ℚ) : ℝ) * 0.5 * (1 + hourFactor 6)))
      else max 100 (jsRoundR (((junctionIndexOf j0Junction.id : ℤ) : ℝ) * 100
        + 300 + hourFactor 6 * 300))) = 400 := by
      rw [if_neg (by simp)]
      show max 100 (jsRoundR (((junctionIndexOf "j0" : ℤ) : ℝ) * 100 + 300
        + hourFactor 6 * 300)) = 400
      rw [h1, hourFactor_six, jsRoundR]
      norm_num
    simpa using this
  · rw [h0, hourFactor_six, jsRoundR]
    norm_num

/-- C6 (amended): every series entry at hour index `i` carries
`trafficValue = max(100, round(baseFactor + hourFactor·300))`, replaced for
the `"after"` variant with non-zero impact by
`max(100, round(thatValue − impact·0.5·(1 + hourFactor)))`, and
`baselineValue = round(baseFactor·0.8)`, where
`baseFactor = junctionIndex·100 + 300` and `junctionIndex` is the code's
parse (`parseInt` after deleting the first `"j"`), defaulting to 1 when the
parse fails **or yields 0**. -/
theorem flow_entry_formulas (type_ : String) (j : Junction) (impact : ℚ)
    (now : ℤ) (i : ℕ) (h : i < 24) :
    (generateMockTrafficFlowData type_ j impact now)[i]?
      = some
        { time := now - ((23 : ℤ) - (i : ℤ)) * 3600000
          traffic :=
            if type_ = "after" ∧ impact ≠ 0 then
              max 100 (jsRoundR
                (((max 100 (jsRoundR (((junctionIndexOf j.id : ℤ) : ℝ) * 100
                    + 300 + hourFactor i * 300)) : ℤ) : ℝ)
                  - (impact : ℝ) * 0.5 * (1 + hourFactor i)))
            else
              max 100 (jsRoundR (((junctionIndexOf j.id : ℤ) : ℝ) * 100 + 300
                + hourFactor i * 300))
          before := jsRoundR ((((junctionIndexOf j.id : ℤ) : ℝ) * 100 + 300)
            * 0.8) } := by
  rw [generateMockTrafficFlowData, List.getElem?_map, List.getElem?_range h]
  rfl

/-- C6 witness: the entry formula at the scenario junction, hour index 6. -/
theorem flow_entry_formulas_witness :
    (6 : ℕ) < 24 ∧
    (generateMockTrafficFlowData "before" scenarioJunction 0 0)[(6 : ℕ)]?
      = some
        { time := 0 - ((23 : ℤ) - ((6 : ℕ) : ℤ)) * 3600000
          traffic :=
            if ("before" : String) = "after" ∧ (0 : ℚ) ≠ 0 then
              max 100 (jsRoundR
                (((max 100 (jsRoundR
                    (((junctionIndexOf scenarioJunction.id : ℤ) : ℝ) * 100
                      + 300 + hourFactor 6 * 300)) : ℤ) : ℝ)
                  - ((0 : ℚ) : ℝ) * 0.5 * (1 + hourFactor 6)))
            else
              max 100 (jsRoundR
                (((junctionIndexOf scenarioJunction.id : ℤ) : ℝ) * 100 + 300
                  + hourFactor 6 * 300))
          before := jsRoundR
            ((((junctionIndexOf scenarioJunction.id : ℤ) : ℝ) * 100 + 300)
              * 0.8) } :=
  ⟨by norm_num,
    flow_entry_formulas "before" scenarioJunction 0 0 6 (by norm_num)⟩

/-- C7: the series always has exactly 24 entries; their timestamps are
`now − (23 − i)` hours for `i < 24`, hence strictly increasing, exactly one
hour (3 600 000 ms) apart, with the last entry at `now`. -/
theorem flow_series_shape (type_ : String) (j : Junction) (impact : ℚ)
    (now : ℤ) :
    (generateMockTrafficFlowData type_ j impact now).length = 24 ∧
    (generateMockTrafficFlowData type_ j impact now).map FlowPoint.time
      = (List.range 24).map
          (fun i : ℕ => now - ((23 : ℤ) - (i : ℤ)) * 3600000) ∧
    List.Chain' (fun a b => b = a + 3600000 ∧ a < b)
      ((generateMockTrafficFlowData type_ j impact now).map FlowPoint.time) ∧
    ((generateMockTrafficFlowData type_ j impact now).map
        FlowPoint.time).getLast? = some now := by
  have hmap : (generateMockTrafficFlowData type_ j impact now).map
        FlowPoint.time
      = (List.range 24).map
          (fun i : ℕ => now - ((23 : ℤ) - (i : ℤ)) * 3600000) := by
    rw [generateMockTrafficFlowData, List.map_map]
    rfl
  refine ⟨by simp [generateMockTrafficFlowData], hmap, ?_, ?_⟩
  · rw [hmap, List.chain'_map, show (24 : ℕ) = 23 + 1 from rfl,
      List.chain'_range_succ]
    intro m hm
    constructor
    · push_cast
      ring
    · push_cast
      omega
  · rw [hmap, show (24 : ℕ) = 23 + 1 from rfl, List.range_succ,
      List.map_append]
    simp

end RoadSim
